import Mathlib

/-!
Shallow embedding of the birdnest no-drone-zone (NDZ) violation monitor
(src/backend/src/NDZviolationMonitoring.ts).  The file contains two
evolving versions of the monitor class; both are embedded here.

Modelling choices, recorded once:

* Times (`Date` values and wall-clock instants) are integers counting
  milliseconds, as `Date.getTime()` exposes them.

* Distances.  The source computes
  `Math.sqrt(Math.abs(x) ** 2 + Math.abs(y) ** 2)` and afterwards only
  ever compares distances with each other or with the constant radius
  `100_000`, and takes minima of such comparisons.  `Real.sqrt` is
  strictly monotone on nonnegative reals (`Real.sqrt_le_left`,
  `Real.sqrt_le_sqrt_iff`), so the observable behaviour of every
  comparison is identical whether the program carries `sqrt d2` or `d2`
  itself.  To stay inside exact, computable arithmetic the embedding
  carries the exact integer squared distance (field
  `closestDistanceSqMm`), and the radius test `distance <= 100_000`
  becomes `distanceSq <= 100_000 ^ 2`.  The lemma
  `sqrt_dist_le_radius_iff` below records the equivalence.

* The rate-limit throttle.  The source keeps a boolean `throttle`, sets
  it on an HTTP 429 response and clears it with a `setTimeout` of
  6000 ms.  Assuming the timer fires exactly 6000 ms after it is set,
  the boolean at instant `t` equals `t < deadline` where
  `deadline = (time of the 429) + 6000`; the state therefore stores
  `throttleUntil : Option Int` and `isThrottled` compares it with the
  current instant.

* Network effects.  The outcome of the drone-feed fetch is an input of
  each cycle (`FetchResult`): a parsed report, an ordinary failure, or
  an HTTP 429.  The outcome of the pilot-registry batch is an input
  `Option (String → Option PilotInfo)`: `none` models the `catch`
  branch of `fetchPilots` returning `null` (total batch failure), and
  `some resolve` gives the per-serial settlement results.  The
  per-request settlement of one axios call is modelled by
  `SettledResult` for the `fetchPilots` body itself.

* `setInterval` cycles are modelled as a list of `CycleEvent`s folded
  over the state: a `check` event runs `checkNewViolations`, an `evict`
  event runs `removeTooOldViolations`.  Cycles are assumed
  non-overlapping (spec section 5).
-/

/-- Pilot record, as destructured from the pilot-registry response
(`firstName`, `lastName`, `phoneNumber`, `email`). -/
structure PilotInfo where
  firstName : String
  lastName : String
  phoneNumber : String
  email : String
deriving DecidableEq, Repr

/-- The `NDZViolation` interface of the source.  `closestDistanceSqMm`
holds the squared distance in mm^2 (see the module comment: the source
stores the square root of this value, a strictly monotone transform).
`latestCaptureDateAndTime` is a millisecond timestamp. -/
structure NDZViolation where
  serialNumber : String
  closestDistanceSqMm : Int
  pilot : Option PilotInfo
  latestCaptureDateAndTime : Int
deriving DecidableEq, Repr

/-- One drone entry of the parsed feed report: serial number and X/Y
position in millimetres. -/
structure DroneData where
  serialNumber : String
  positionX : Int
  positionY : Int
deriving DecidableEq, Repr

/-- The parsed feed report: the capture `@_snapshotTimestamp` and the
list of drone entries (the source casts `report.capture.drone` to an
array). -/
structure DroneReport where
  snapshotTimestamp : Int
  drones : List DroneData
deriving DecidableEq, Repr

/-- Outcome of one call to the drone feed, an input of each cycle:
a successfully fetched and parsed report, an ordinary transport or
decode failure, or an HTTP 429 rate-limit response. -/
inductive FetchResult where
  | success (report : DroneReport)
  | failure
  | rateLimited
deriving DecidableEq, Repr

/-- One entry of `distToNDZCenterPerDrone`: a serial number paired with
the computed (squared) distance to the NDZ center. -/
structure DroneDist where
  serialNumber : String
  distance : Int
deriving DecidableEq, Repr

/-- The mutable fields of the `NDZViolationMonitor` class (second
version): the violation list, `_lastUpdatedAt`, and the throttle state
(as a deadline, see the module comment). -/
structure MonitorState where
  violations : List NDZViolation
  lastUpdatedAt : Option Int
  throttleUntil : Option Int
deriving DecidableEq, Repr

/-- The state of a fresh `NDZViolationMonitor`: empty violation list,
`_lastUpdatedAt = null`, throttle off. -/
def initState : MonitorState :=
  { violations := [], lastUpdatedAt := none, throttleUntil := none }

/-- The boolean `this.throttle` at instant `now`: set by a 429 at time
`t`, cleared by a timer at `t + 6000`, hence true exactly while
`now < t + 6000`. -/
def isThrottled (s : MonitorState) (now : Int) : Bool :=
  match s.throttleUntil with
  | some deadline => decide (now < deadline)
  | none => false

/-- The cooldown the source passes to `setTimeout` after a 429, in
milliseconds. -/
def throttleCooldownMs : Int := 6000

/-- The `calcDistanceToNDZcenter` method, carried as the squared
distance: `Math.abs(x) ** 2 + Math.abs(y) ** 2` for
`x = positionX - 250_000`, `y = positionY - 250_000`.  The source
additionally applies `Math.sqrt`; see the module comment. -/
def calcDistanceToNDZcenterSq (drone : DroneData) : Int :=
  let x := drone.positionX - 250000
  let y := drone.positionY - 250000
  |x| ^ 2 + |y| ^ 2

/-- The constant `NDZRadiusInMm = 100_000` of `checkNewViolations`. -/
def NDZRadiusInMm : Int := 100000

/-- The `fetchDrones` method: returns the parsed report or `null`, and
on a 429 response sets the throttle (deadline `now + 6000`). -/
def fetchDrones (s : MonitorState) (now : Int) (fetch : FetchResult) :
    MonitorState × Option DroneReport :=
  match fetch with
  | .success report => (s, some report)
  | .failure => (s, none)
  | .rateLimited => ({ s with throttleUntil := some (now + throttleCooldownMs) }, none)

/-- The body of the update applied to one existing violation record:
`latestCaptureDateAndTime` is overwritten unconditionally and
`closestDistanceSqMm` is lowered when the observed distance is smaller
or equal.  Shared verbatim by `updateViolations` (second version) and
`addOrUpdateViolations` (first version). -/
def updateViolationRecord (dist t : Int) (v : NDZViolation) : NDZViolation :=
  { v with
    latestCaptureDateAndTime := t,
    closestDistanceSqMm :=
      if dist ≤ v.closestDistanceSqMm then dist else v.closestDistanceSqMm }

/-- Applies `f` to the LAST list element whose serial number is `sn`,
leaving everything else in place.  This models the mutation through
`serialNumberViolationMap` in `updateViolations`: `Object.fromEntries`
keeps, for each serial number, the last record listed, and the loop
mutates records through that map (record serial numbers are never
changed, so the identity of the last match is stable). -/
def updateLast (sn : String) (f : NDZViolation → NDZViolation) :
    List NDZViolation → List NDZViolation
  | [] => []
  | v :: rest =>
    if v.serialNumber == sn && !(rest.any fun w => w.serialNumber == sn) then
      f v :: rest
    else
      v :: updateLast sn f rest

/-- The `updateViolations` method of the second version: for each
entry of `distancePerDrone`, the record mapped to its serial number (if
any) gets `latestCaptureDateAndTime := dateAndTime` and its closest
distance lowered to the observed one when smaller. -/
def updateViolations (violations : List NDZViolation)
    (distancePerDrone : List DroneDist) (dateAndTime : Int) : List NDZViolation :=
  distancePerDrone.foldl
    (fun vs dd => updateLast dd.serialNumber (updateViolationRecord dd.distance dateAndTime) vs)
    violations

/-- The list `distToNDZCenterPerDrone` of `checkNewViolations`: serial
number and computed (squared) distance per drone of the report. -/
def distToNDZCenterPerDrone (report : DroneReport) : List DroneDist :=
  report.drones.map fun d =>
    ({ serialNumber := d.serialNumber, distance := calcDistanceToNDZcenterSq d } : DroneDist)

/-- The list `tooCloseDistPerDrone` of `checkNewViolations`: the drones
whose distance passes the radius filter (`distance <= NDZRadiusInMm`,
embedded on squares). -/
def tooCloseDistPerDrone (report : DroneReport) : List DroneDist :=
  (distToNDZCenterPerDrone report).filter fun dd =>
    decide (dd.distance ≤ NDZRadiusInMm ^ 2)

/-- The list `tooCloseDistPerNewDrone` of `checkNewViolations`: the
within-radius drones whose serial number is not among
`existingSerialNumbers`. -/
def tooCloseDistPerNewDrone (existingSerialNumbers : List String)
    (report : DroneReport) : List DroneDist :=
  (tooCloseDistPerDrone report).filter fun dd =>
    !(existingSerialNumbers.contains dd.serialNumber)

/-- The list `newViolations` of `checkNewViolations`: one fresh record
per newly observed within-radius drone, with its resolved pilot and the
snapshot timestamp. -/
def newViolationsOf (resolve : String → Option PilotInfo)
    (existingSerialNumbers : List String) (report : DroneReport) : List NDZViolation :=
  (tooCloseDistPerNewDrone existingSerialNumbers report).map fun dd =>
    ({ serialNumber := dd.serialNumber,
       pilot := resolve dd.serialNumber,
       closestDistanceSqMm := dd.distance,
       latestCaptureDateAndTime := report.snapshotTimestamp } : NDZViolation)

/-- The `checkNewViolations` method of the second version, as one pure
step.  Inputs: the state, the wall clock `now`, the feed outcome, and
the pilot-batch outcome (`none` = the `fetchPilots` catch branch
returned `null`).  Output: the new state, paired with whether a network
fetch of the feed was attempted (false exactly on the early
`if (this.throttle) return`).  The intermediate `const` lists of the
source are the named definitions just above. -/
def checkNewViolations (s : MonitorState) (now : Int) (fetch : FetchResult)
    (pilotFetch : Option (String → Option PilotInfo)) : MonitorState × Bool :=
  if isThrottled s now then (s, false)
  else
    let fetched := fetchDrones s now fetch
    let s1 := fetched.1
    match fetched.2 with
    | none => (s1, true)
    | some report =>
      if report.drones.isEmpty then (s1, true)
      else
        if (tooCloseDistPerDrone report).isEmpty then (s1, true)
        else
          let existingSerialNumbers := s1.violations.map (·.serialNumber)
          match pilotFetch with
          | none => (s1, true)
          | some resolve =>
            let vs1 := s1.violations ++ newViolationsOf resolve existingSerialNumbers report
            let vs2 := updateViolations vs1 (distToNDZCenterPerDrone report)
              report.snapshotTimestamp
            ({ violations := vs2, lastUpdatedAt := some now, throttleUntil := s1.throttleUntil },
             true)

/-- The retention in ms: `minToStoreViolationFor * 60 * 1000` with
`minToStoreViolationFor = 10`. -/
def msToStoreFor : Int := 10 * 60 * 1000

/-- The `removeTooOldViolations` method: keeps exactly the records with
`now - latestCaptureDateAndTime <= msToStoreFor`.  The source reads
`new Date()` inside the filter; the embedding passes one instant `now`
for the whole pass, matching the `evictOlderThan(now, retention)`
contract of the spec. -/
def removeTooOldViolations (violations : List NDZViolation) (now : Int) :
    List NDZViolation :=
  violations.filter fun v => decide (now - v.latestCaptureDateAndTime ≤ msToStoreFor)

/-- Settlement of a single axios pilot-registry request, as seen by
`Promise.allSettled`: fulfilled with an HTTP status and (destructured)
body, or rejected. -/
inductive SettledResult where
  | fulfilled (status : Nat) (data : PilotInfo)
  | rejected
deriving DecidableEq, Repr

/-- The mapping the body of `fetchPilots` applies to one settled
result: when fulfilled, `if (response.status === 200)` yields the
destructured pilot data and any other status yields `null`; a rejected
settlement yields `null`. -/
def pilotFromSettled : SettledResult → Option PilotInfo
  | .fulfilled status data => if status = 200 then some data else none
  | .rejected => none

/-- The `fetchPilots` method on the non-exceptional path: one request
per serial number, all settled, each settlement mapped independently by
`pilotFromSettled`.  The `results` input lists the settlement of the
request issued for each serial number, in request order.  The `catch`
branch (returning `null`) is modelled by the `Option` pilot-batch input
of `checkNewViolations`. -/
def fetchPilots (results : List SettledResult) : List (Option PilotInfo) :=
  results.map pilotFromSettled

/-- Applies `f` to the FIRST list element whose serial number is `sn`
(the `Array.prototype.find` of the first version). -/
def updateFirst (sn : String) (f : NDZViolation → NDZViolation) :
    List NDZViolation → List NDZViolation
  | [] => []
  | v :: rest =>
    if v.serialNumber == sn then f v :: rest else v :: updateFirst sn f rest

/-- One iteration of the loop of `addOrUpdateViolations` (first
version): if some record shares the serial number of the incoming
violation, the first such record is updated (timestamp overwritten,
closest distance lowered when smaller, pilot untouched); otherwise the
incoming violation is pushed. -/
def addOrUpdateOne (vs : List NDZViolation) (nv : NDZViolation) : List NDZViolation :=
  if vs.any (fun v => v.serialNumber == nv.serialNumber) then
    updateFirst nv.serialNumber
      (updateViolationRecord nv.closestDistanceSqMm nv.latestCaptureDateAndTime) vs
  else
    vs ++ [nv]

/-- The `addOrUpdateViolations` method of the first version: the loop
over the incoming violations, each handled by `addOrUpdateOne`. -/
def addOrUpdateViolations (vs incoming : List NDZViolation) : List NDZViolation :=
  incoming.foldl addOrUpdateOne vs

/-- One tick of the `setInterval` body, split into its two calls:
a `check` event is `checkNewViolations` with the cycle inputs, an
`evict` event is `removeTooOldViolations` at a wall-clock instant. -/
inductive CycleEvent where
  | check (now : Int) (fetch : FetchResult)
      (pilotFetch : Option (String → Option PilotInfo))
  | evict (now : Int)

/-- Applies one cycle event to the monitor state. -/
def stepEvent (s : MonitorState) (e : CycleEvent) : MonitorState :=
  match e with
  | .check now fetch pilotFetch => (checkNewViolations s now fetch pilotFetch).1
  | .evict now => { s with violations := removeTooOldViolations s.violations now }

/-- Runs a sequence of cycle events from a state. -/
def runEvents (s : MonitorState) (es : List CycleEvent) : MonitorState :=
  es.foldl stepEvent s

/-- A snapshot processed by an event lists each serial number at most
once (vacuous for non-`check` events and failed fetches). -/
def eventSerialsNodup : CycleEvent → Prop
  | .check _ (.success report) _ => (report.drones.map (·.serialNumber)).Nodup
  | _ => True

instance : DecidablePred eventSerialsNodup := by
  intro e
  unfold eventSerialsNodup
  match e with
  | .check _ (.success _) _ => exact List.nodupDecidable _
  | .check _ .failure _ => exact inferInstanceAs (Decidable True)
  | .check _ .rateLimited _ => exact inferInstanceAs (Decidable True)
  | .evict _ => exact inferInstanceAs (Decidable True)

/-- The store lists at most one violation per serial number. -/
def storeSerialsNodup (s : MonitorState) : Prop :=
  (s.violations.map (·.serialNumber)).Nodup

instance : DecidablePred storeSerialsNodup := fun _ => List.nodupDecidable _

/-- Looks up the violation record for a serial number (first match, as
`Array.prototype.find` does). -/
def findViolation (vs : List NDZViolation) (sn : String) : Option NDZViolation :=
  vs.find? fun v => v.serialNumber == sn

/-- Bridge between the source distance test and the embedded one: for
a nonnegative squared distance `a`, the source test
`Math.sqrt a <= 100000` holds exactly when `a <= 100000 ^ 2`, so
carrying squared distances preserves the radius filter. -/
theorem sqrt_dist_le_radius_iff (a : Int) :
    Real.sqrt (a : ℝ) ≤ ((NDZRadiusInMm : Int) : ℝ) ↔ a ≤ NDZRadiusInMm ^ 2 := by
  rw [Real.sqrt_le_left (by norm_num [NDZRadiusInMm])]
  constructor
  · intro h
    exact_mod_cast h
  · intro h
    exact_mod_cast h

/-- Bridge between comparisons of source distances and of embedded
squared distances: square root is monotone, so `min` and every order
comparison transfer. -/
theorem sqrt_dist_le_sqrt_dist_iff (a b : Int) (hb : 0 ≤ b) :
    Real.sqrt (a : ℝ) ≤ Real.sqrt (b : ℝ) ↔ a ≤ b := by
  rw [Real.sqrt_le_sqrt_iff (by exact_mod_cast hb)]
  exact ⟨fun h => by exact_mod_cast h, fun h => by exact_mod_cast h⟩

/-! ### Record evolution

`recordEvolves v w` says that `w` is a possible later state of the
record `v` under the update paths of both monitor versions: the serial
number and the pilot are untouched and the closest distance never
increases. -/

/-- What the update paths preserve about one record: serial number and
pilot unchanged, closest distance not increased. -/
def recordEvolves (v w : NDZViolation) : Prop :=
  w.serialNumber = v.serialNumber ∧ w.pilot = v.pilot ∧
    w.closestDistanceSqMm ≤ v.closestDistanceSqMm

theorem recordEvolves_refl (v : NDZViolation) : recordEvolves v v :=
  ⟨rfl, rfl, le_refl _⟩

theorem recordEvolves_trans {u v w : NDZViolation}
    (h1 : recordEvolves u v) (h2 : recordEvolves v w) : recordEvolves u w :=
  ⟨h2.1.trans h1.1, h2.2.1.trans h1.2.1, h2.2.2.trans h1.2.2⟩

theorem recordEvolves_updateViolationRecord (dist t : Int) (v : NDZViolation) :
    recordEvolves v (updateViolationRecord dist t v) := by
  refine ⟨rfl, rfl, ?_⟩
  simp only [updateViolationRecord]
  split
  · omega
  · exact le_refl _

theorem forall2_evolves_refl (l : List NDZViolation) :
    List.Forall₂ recordEvolves l l :=
  List.forall₂_same.mpr fun v _ => recordEvolves_refl v

theorem forall2_evolves_trans :
    ∀ {l₁ l₂ l₃ : List NDZViolation}, List.Forall₂ recordEvolves l₁ l₂ →
      List.Forall₂ recordEvolves l₂ l₃ → List.Forall₂ recordEvolves l₁ l₃ := by
  intro l₁ l₂ l₃ h1 h2
  induction h1 generalizing l₃ with
  | nil => cases h2; exact .nil
  | cons hab _ ih =>
    cases h2 with
    | cons hbc htail => exact .cons (recordEvolves_trans hab hbc) (ih htail)

theorem forall2_evolves_get? :
    ∀ {l₁ l₂ : List NDZViolation}, List.Forall₂ recordEvolves l₁ l₂ →
      ∀ {i : Nat} {v : NDZViolation}, l₁[i]? = some v →
        ∃ w, l₂[i]? = some w ∧ recordEvolves v w := by
  intro l₁ l₂ h
  induction h with
  | nil => intro i v hv; simp at hv
  | cons hab htail ih =>
    intro i v hv
    match i with
    | 0 =>
      simp only [List.getElem?_cons_zero, Option.some.injEq] at hv
      exact ⟨_, by simp, hv ▸ hab⟩
    | n + 1 =>
      simp only [List.getElem?_cons_succ] at hv ⊢
      exact ih hv

theorem forall2_evolves_map_serial :
    ∀ {l₁ l₂ : List NDZViolation}, List.Forall₂ recordEvolves l₁ l₂ →
      l₂.map (·.serialNumber) = l₁.map (·.serialNumber) := by
  intro l₁ l₂ h
  induction h with
  | nil => rfl
  | cons hab _ ih => simp [hab.1, ih]

theorem forall2_evolves_find :
    ∀ {l₁ l₂ : List NDZViolation}, List.Forall₂ recordEvolves l₁ l₂ →
      ∀ {sn : String} {v : NDZViolation}, findViolation l₁ sn = some v →
        ∃ w, findViolation l₂ sn = some w ∧ recordEvolves v w := by
  intro l₁ l₂ h
  induction h with
  | nil => intro sn v hv; simp [findViolation] at hv
  | @cons a b t₁ t₂ hab htail ih =>
    intro sn v hv
    by_cases hs : a.serialNumber = sn
    · refine ⟨b, ?_, ?_⟩
      · simp [findViolation, List.find?_cons_of_pos, hab.1, hs]
      · simp only [findViolation] at hv
        rw [List.find?_cons_of_pos _ (by simp [hs])] at hv
        cases hv
        exact hab
    · simp only [findViolation] at hv
      rw [List.find?_cons_of_neg _ (by simp [hs])] at hv
      obtain ⟨w, hw, hvw⟩ := ih hv
      refine ⟨w, ?_, hvw⟩
      simpa [findViolation, List.find?_cons_of_neg, hab.1, hs] using hw

theorem updateLast_forall2 (sn : String) (f : NDZViolation → NDZViolation)
    (hf : ∀ v, recordEvolves v (f v)) :
    ∀ l : List NDZViolation, List.Forall₂ recordEvolves l (updateLast sn f l)
  | [] => .nil
  | v :: rest => by
    unfold updateLast
    split
    · exact .cons (hf v) (forall2_evolves_refl rest)
    · exact .cons (recordEvolves_refl v) (updateLast_forall2 sn f hf rest)

theorem updateViolations_forall2 :
    ∀ (ds : List DroneDist) (vs : List NDZViolation) (t : Int),
      List.Forall₂ recordEvolves vs (updateViolations vs ds t)
  | [], vs, t => forall2_evolves_refl vs
  | d :: ds, vs, t => by
    have hstep : updateViolations vs (d :: ds) t =
        updateViolations
          (updateLast d.serialNumber (updateViolationRecord d.distance t) vs) ds t := rfl
    rw [hstep]
    exact forall2_evolves_trans
      (updateLast_forall2 _ _ (fun v => recordEvolves_updateViolationRecord _ _ v) vs)
      (updateViolations_forall2 ds _ t)

theorem updateFirst_forall2 (sn : String) (f : NDZViolation → NDZViolation)
    (hf : ∀ v, recordEvolves v (f v)) :
    ∀ l : List NDZViolation, List.Forall₂ recordEvolves l (updateFirst sn f l)
  | [] => .nil
  | v :: rest => by
    unfold updateFirst
    split
    · exact .cons (hf v) (forall2_evolves_refl rest)
    · exact .cons (recordEvolves_refl v) (updateFirst_forall2 sn f hf rest)

/-! ### Branch lemmas for one `checkNewViolations` step -/

theorem checkNewViolations_throttled {s : MonitorState} {now : Int}
    (fetch : FetchResult) (pf : Option (String → Option PilotInfo))
    (h : isThrottled s now = true) :
    checkNewViolations s now fetch pf = (s, false) := by
  simp [checkNewViolations, h]

theorem checkNewViolations_failure {s : MonitorState} {now : Int}
    (pf : Option (String → Option PilotInfo)) (h : isThrottled s now = false) :
    checkNewViolations s now .failure pf = (s, true) := by
  simp [checkNewViolations, h, fetchDrones]

theorem checkNewViolations_rateLimited {s : MonitorState} {now : Int}
    (pf : Option (String → Option PilotInfo)) (h : isThrottled s now = false) :
    checkNewViolations s now .rateLimited pf =
      ({ s with throttleUntil := some (now + throttleCooldownMs) }, true) := by
  simp [checkNewViolations, h, fetchDrones]

theorem checkNewViolations_emptyCapture {s : MonitorState} {now : Int}
    {report : DroneReport} (pf : Option (String → Option PilotInfo))
    (h : isThrottled s now = false) (he : report.drones.isEmpty = true) :
    checkNewViolations s now (.success report) pf = (s, true) := by
  simp [checkNewViolations, h, fetchDrones, he]

theorem checkNewViolations_noneTooClose {s : MonitorState} {now : Int}
    {report : DroneReport} (pf : Option (String → Option PilotInfo))
    (h : isThrottled s now = false) (he : report.drones.isEmpty = false)
    (ht : (tooCloseDistPerDrone report).isEmpty = true) :
    checkNewViolations s now (.success report) pf = (s, true) := by
  simp [checkNewViolations, h, fetchDrones, he, ht]

theorem checkNewViolations_pilotsNull {s : MonitorState} {now : Int}
    {report : DroneReport} (h : isThrottled s now = false)
    (he : report.drones.isEmpty = false)
    (ht : (tooCloseDistPerDrone report).isEmpty = false) :
    checkNewViolations s now (.success report) none = (s, true) := by
  simp [checkNewViolations, h, fetchDrones, he, ht]

theorem checkNewViolations_full {s : MonitorState} {now : Int}
    {report : DroneReport} (resolve : String → Option PilotInfo)
    (h : isThrottled s now = false) (he : report.drones.isEmpty = false)
    (ht : (tooCloseDistPerDrone report).isEmpty = false) :
    checkNewViolations s now (.success report) (some resolve) =
      ({ violations :=
           updateViolations
             (s.violations ++
               newViolationsOf resolve (s.violations.map (·.serialNumber)) report)
             (distToNDZCenterPerDrone report) report.snapshotTimestamp,
         lastUpdatedAt := some now,
         throttleUntil := s.throttleUntil }, true) := by
  simp [checkNewViolations, h, fetchDrones, he, ht]

/-! ### Serial numbers preserved and kept duplicate-free -/

theorem updateViolations_map_serial (vs : List NDZViolation)
    (ds : List DroneDist) (t : Int) :
    (updateViolations vs ds t).map (·.serialNumber) = vs.map (·.serialNumber) :=
  forall2_evolves_map_serial (updateViolations_forall2 ds vs t)

theorem distToNDZCenterPerDrone_map_serial (report : DroneReport) :
    (distToNDZCenterPerDrone report).map (·.serialNumber) =
      report.drones.map (·.serialNumber) := by
  simp [distToNDZCenterPerDrone, List.map_map, Function.comp]

theorem newViolationsOf_map_serial (resolve : String → Option PilotInfo)
    (ex : List String) (report : DroneReport) :
    (newViolationsOf resolve ex report).map (·.serialNumber) =
      (tooCloseDistPerNewDrone ex report).map (·.serialNumber) := by
  simp [newViolationsOf, List.map_map, Function.comp]

theorem tooCloseDistPerNewDrone_serial_sublist (ex : List String)
    (report : DroneReport) :
    ((tooCloseDistPerNewDrone ex report).map (·.serialNumber)).Sublist
      (report.drones.map (·.serialNumber)) := by
  rw [← distToNDZCenterPerDrone_map_serial]
  exact List.Sublist.map _
    ((List.filter_sublist _).trans (List.filter_sublist _))

theorem tooCloseDistPerNewDrone_not_existing (ex : List String)
    (report : DroneReport) {sn : String}
    (h : sn ∈ (tooCloseDistPerNewDrone ex report).map (·.serialNumber)) :
    sn ∉ ex := by
  obtain ⟨dd, hdd, rfl⟩ := List.mem_map.mp h
  have := (List.mem_filter.mp hdd).2
  simp only [Bool.not_eq_eq_eq_not, Bool.not_true] at this
  intro hmem
  simp only [List.contains, List.elem_eq_mem, decide_eq_false_iff_not] at this
  exact this hmem

/-- One cycle event keeps the serial numbers of the store
duplicate-free, provided the snapshot (if any) lists each serial number
at most once. -/
theorem stepEvent_nodup {s : MonitorState} {e : CycleEvent}
    (he : eventSerialsNodup e) (hs : storeSerialsNodup s) :
    storeSerialsNodup (stepEvent s e) := by
  match e with
  | .evict now =>
    simp only [stepEvent, storeSerialsNodup, removeTooOldViolations]
    exact ((List.filter_sublist _).map _).nodup hs
  | .check now fetch pf =>
    by_cases hth : isThrottled s now = true
    · simpa [stepEvent, checkNewViolations_throttled fetch pf hth] using hs
    · rw [Bool.not_eq_true] at hth
      match fetch with
      | .failure => simpa [stepEvent, checkNewViolations_failure pf hth] using hs
      | .rateLimited =>
        simpa [stepEvent, checkNewViolations_rateLimited pf hth, storeSerialsNodup]
          using hs
      | .success report =>
        cases hemp : report.drones.isEmpty with
        | true =>
          simpa [stepEvent, checkNewViolations_emptyCapture pf hth hemp] using hs
        | false =>
          cases htc : (tooCloseDistPerDrone report).isEmpty with
          | true =>
            simpa [stepEvent, checkNewViolations_noneTooClose pf hth hemp htc] using hs
          | false =>
            match pf with
            | none =>
              simpa [stepEvent, checkNewViolations_pilotsNull hth hemp htc] using hs
            | some resolve =>
              have hrep : (report.drones.map (·.serialNumber)).Nodup := he
              simp only [stepEvent, checkNewViolations_full resolve hth hemp htc,
                storeSerialsNodup, updateViolations_map_serial, List.map_append]
              refine hs.append ?_ ?_
              · rw [newViolationsOf_map_serial]
                exact (tooCloseDistPerNewDrone_serial_sublist _ report).nodup hrep
              · intro sn hsn hsn2
                rw [newViolationsOf_map_serial] at hsn2
                exact tooCloseDistPerNewDrone_not_existing _ report hsn2 hsn

/-- Running any sequence of duplicate-free-snapshot cycles from a
duplicate-free store keeps the store duplicate-free. -/
theorem runEvents_nodup :
    ∀ (es : List CycleEvent) (s : MonitorState), storeSerialsNodup s →
      (∀ e ∈ es, eventSerialsNodup e) → storeSerialsNodup (runEvents s es)
  | [], s, hs, _ => hs
  | e :: es, s, hs, he => by
    have h1 : storeSerialsNodup (stepEvent s e) := stepEvent_nodup (he e (by simp)) hs
    have : runEvents s (e :: es) = runEvents (stepEvent s e) es := rfl
    rw [this]
    exact runEvents_nodup es _ h1 fun x hx => he x (by simp [hx])

/-! ### Evolution of individual records across cycle steps -/

/-- Every record position that exists before a `checkNewViolations`
step still holds, after the step, a record with the same serial number
and pilot and a closest distance no larger. -/
theorem checkNewViolations_get?_evolves (s : MonitorState) (now : Int)
    (fetch : FetchResult) (pf : Option (String → Option PilotInfo))
    {i : Nat} {v : NDZViolation} (hv : s.violations[i]? = some v) :
    ∃ w, ((checkNewViolations s now fetch pf).1).violations[i]? = some w ∧
      recordEvolves v w := by
  by_cases hth : isThrottled s now = true
  · exact ⟨v, by simp [checkNewViolations_throttled fetch pf hth, hv],
      recordEvolves_refl v⟩
  · rw [Bool.not_eq_true] at hth
    match fetch with
    | .failure =>
      exact ⟨v, by simp [checkNewViolations_failure pf hth, hv], recordEvolves_refl v⟩
    | .rateLimited =>
      exact ⟨v, by simp [checkNewViolations_rateLimited pf hth, hv],
        recordEvolves_refl v⟩
    | .success report =>
      cases hemp : report.drones.isEmpty with
      | true =>
        exact ⟨v, by simp [checkNewViolations_emptyCapture pf hth hemp, hv],
          recordEvolves_refl v⟩
      | false =>
        cases htc : (tooCloseDistPerDrone report).isEmpty with
        | true =>
          exact ⟨v, by simp [checkNewViolations_noneTooClose pf hth hemp htc, hv],
            recordEvolves_refl v⟩
        | false =>
          match pf with
          | none =>
            exact ⟨v, by simp [checkNewViolations_pilotsNull hth hemp htc, hv],
              recordEvolves_refl v⟩
          | some resolve =>
            rw [checkNewViolations_full resolve hth hemp htc]
            have hlt : i < s.violations.length := by
              rcases List.getElem?_eq_some_iff.mp hv with ⟨h, _⟩
              exact h
            have happ :
                (s.violations ++
                    newViolationsOf resolve (s.violations.map (·.serialNumber))
                      report)[i]? = some v := by
              rw [List.getElem?_append_left hlt]; exact hv
            exact forall2_evolves_get? (updateViolations_forall2 _ _ _) happ

/-- Same statement through `findViolation`: a serial number found
before a `checkNewViolations` step is found after it, with a record the
old one evolves to. -/
theorem checkNewViolations_find_evolves (s : MonitorState) (now : Int)
    (fetch : FetchResult) (pf : Option (String → Option PilotInfo))
    {sn : String} {v : NDZViolation}
    (hv : findViolation s.violations sn = some v) :
    ∃ w, findViolation ((checkNewViolations s now fetch pf).1).violations sn = some w ∧
      recordEvolves v w := by
  by_cases hth : isThrottled s now = true
  · exact ⟨v, by simp [checkNewViolations_throttled fetch pf hth, hv],
      recordEvolves_refl v⟩
  · rw [Bool.not_eq_true] at hth
    match fetch with
    | .failure =>
      exact ⟨v, by simp [checkNewViolations_failure pf hth, hv], recordEvolves_refl v⟩
    | .rateLimited =>
      exact ⟨v, by simp [checkNewViolations_rateLimited pf hth, hv],
        recordEvolves_refl v⟩
    | .success report =>
      cases hemp : report.drones.isEmpty with
      | true =>
        exact ⟨v, by simp [checkNewViolations_emptyCapture pf hth hemp, hv],
          recordEvolves_refl v⟩
      | false =>
        cases htc : (tooCloseDistPerDrone report).isEmpty with
        | true =>
          exact ⟨v, by simp [checkNewViolations_noneTooClose pf hth hemp htc, hv],
            recordEvolves_refl v⟩
        | false =>
          match pf with
          | none =>
            exact ⟨v, by simp [checkNewViolations_pilotsNull hth hemp htc, hv],
              recordEvolves_refl v⟩
          | some resolve =>
            rw [checkNewViolations_full resolve hth hemp htc]
            have happ :
                findViolation
                  (s.violations ++
                    newViolationsOf resolve (s.violations.map (·.serialNumber)) report)
                  sn = some v := by
              simp only [findViolation] at hv ⊢
              simp [List.find?_append, hv]
            exact forall2_evolves_find (updateViolations_forall2 _ _ _) happ

/-- With duplicate-free serial numbers, the record an eviction pass
leaves behind for a serial number is exactly the record held before. -/
theorem removeTooOldViolations_find_eq {s : MonitorState} {sn : String}
    {v w : NDZViolation} {now : Int} (hs : storeSerialsNodup s)
    (hv : findViolation s.violations sn = some v)
    (hw : findViolation (removeTooOldViolations s.violations now) sn = some w) :
    w = v := by
  have hvmem : v ∈ s.violations := List.mem_of_find?_eq_some hv
  have hvser : v.serialNumber = sn := by
    have := List.find?_some hv
    simpa using this
  have hwmem : w ∈ s.violations :=
    (List.mem_filter.mp (List.mem_of_find?_eq_some hw)).1
  have hwser : w.serialNumber = sn := by
    have := List.find?_some hw
    simpa using this
  exact List.inj_on_of_nodup_map hs hwmem hvmem (by rw [hvser, hwser])

/-- One cycle event (of either kind) never increases the closest
distance recorded for a serial number, and never changes its pilot,
provided the store serial numbers are duplicate-free. -/
theorem stepEvent_find_evolves {s : MonitorState} {e : CycleEvent} {sn : String}
    {v w : NDZViolation} (hs : storeSerialsNodup s)
    (hv : findViolation s.violations sn = some v)
    (hw : findViolation (stepEvent s e).violations sn = some w) :
    recordEvolves v w := by
  match e with
  | .check now fetch pf =>
    obtain ⟨w2, hw2, hev⟩ := checkNewViolations_find_evolves s now fetch pf hv
    have : w = w2 := by
      have := hw2.symm.trans (hw : findViolation _ sn = some w)
      exact (Option.some.injEq _ _ ▸ this).symm ▸ rfl
    rw [this]
    exact hev
  | .evict now =>
    have : w = v := removeTooOldViolations_find_eq hs hv hw
    rw [this]
    exact recordEvolves_refl v

/-- Monotone evolution of a record across a whole run, over the
lifetime of the record: as long as the serial number stays present
after every prefix of the run, the record it resolves to at the end
evolves from the one at the start. -/
theorem runEvents_find_evolves :
    ∀ (es : List CycleEvent) (s : MonitorState) {sn : String} {v w : NDZViolation},
      storeSerialsNodup s → (∀ e ∈ es, eventSerialsNodup e) →
      (∀ n, n ≤ es.length →
        (findViolation (runEvents s (es.take n)).violations sn).isSome = true) →
      findViolation s.violations sn = some v →
      findViolation (runEvents s es).violations sn = some w →
      recordEvolves v w
  | [], s, sn, v, w, _, _, _, hv, hw => by
    simp only [runEvents, List.foldl_nil] at hw
    rw [hv] at hw
    cases hw
    exact recordEvolves_refl v
  | e :: es, s, sn, v, w, hs, he, hpersist, hv, hw => by
    have hstep : runEvents s (e :: es) = runEvents (stepEvent s e) es := rfl
    have h1 : (findViolation (stepEvent s e).violations sn).isSome = true := by
      have := hpersist 1 (by simp)
      simpa [runEvents] using this
    obtain ⟨v1, hv1⟩ := Option.isSome_iff_exists.mp h1
    have hev1 : recordEvolves v v1 := stepEvent_find_evolves hs hv hv1
    have hs1 : storeSerialsNodup (stepEvent s e) := stepEvent_nodup (he e (by simp)) hs
    have hpersist1 : ∀ n, n ≤ es.length →
        (findViolation (runEvents (stepEvent s e) (es.take n)).violations sn).isSome
          = true := by
      intro n hn
      have := hpersist (n + 1) (by simpa using hn)
      simpa [runEvents, List.take_succ_cons] using this
    have hev2 : recordEvolves v1 w := by
      rw [hstep] at hw
      exact runEvents_find_evolves es (stepEvent s e) hs1
        (fun x hx => he x (by simp [hx])) hpersist1 hv1 hw
    exact recordEvolves_trans hev1 hev2

/-! ### Evolution of records through the first-version update loop -/

theorem addOrUpdateOne_get?_evolves (vs : List NDZViolation) (nv : NDZViolation)
    {i : Nat} {v : NDZViolation} (hv : vs[i]? = some v) :
    ∃ w, (addOrUpdateOne vs nv)[i]? = some w ∧ recordEvolves v w := by
  unfold addOrUpdateOne
  split
  · exact forall2_evolves_get?
      (updateFirst_forall2 _ _ (fun u => recordEvolves_updateViolationRecord _ _ u) vs) hv
  · have hlt : i < vs.length := by
      rcases List.getElem?_eq_some_iff.mp hv with ⟨h, _⟩
      exact h
    exact ⟨v, by rw [List.getElem?_append_left hlt]; exact hv, recordEvolves_refl v⟩

theorem addOrUpdateViolations_get?_evolves :
    ∀ (incoming vs : List NDZViolation) {i : Nat} {v : NDZViolation},
      vs[i]? = some v →
      ∃ w, (addOrUpdateViolations vs incoming)[i]? = some w ∧ recordEvolves v w
  | [], vs, i, v, hv => ⟨v, hv, recordEvolves_refl v⟩
  | nv :: incoming, vs, i, v, hv => by
    obtain ⟨v1, hv1, he1⟩ := addOrUpdateOne_get?_evolves vs nv hv
    have hstep : addOrUpdateViolations vs (nv :: incoming) =
        addOrUpdateViolations (addOrUpdateOne vs nv) incoming := rfl
    rw [hstep]
    obtain ⟨w, hw, he2⟩ := addOrUpdateViolations_get?_evolves incoming _ hv1
    exact ⟨w, hw, recordEvolves_trans he1 he2⟩

/-- Every non-throttled cycle attempts the feed fetch (the second
component of `checkNewViolations` is false only on the throttle early
return). -/
theorem checkNewViolations_attempts_fetch {s : MonitorState} {now : Int}
    (fetch : FetchResult) (pf : Option (String → Option PilotInfo))
    (h : isThrottled s now = false) :
    (checkNewViolations s now fetch pf).2 = true := by
  match fetch with
  | .failure => rw [checkNewViolations_failure pf h]
  | .rateLimited => rw [checkNewViolations_rateLimited pf h]
  | .success report =>
    cases hemp : report.drones.isEmpty with
    | true => rw [checkNewViolations_emptyCapture pf h hemp]
    | false =>
      cases htc : (tooCloseDistPerDrone report).isEmpty with
      | true => rw [checkNewViolations_noneTooClose pf h hemp htc]
      | false =>
        match pf with
        | none => rw [checkNewViolations_pilotsNull h hemp htc]
        | some resolve => rw [checkNewViolations_full resolve h hemp htc]

/-! ### Claim C1 -/

/-- Store for the C1 exhibit: two tracked drones, both last seen at
snapshot time 1000. -/
def c1State : MonitorState :=
  { violations :=
      [⟨"DRONE-A", 100, none, 1000⟩, ⟨"DRONE-B", 0, none, 1000⟩],
    lastUpdatedAt := some 1000,
    throttleUntil := none }

/-- Snapshot for the C1 exhibit: DRONE-A is 110 m from the center
(outside the 100 m radius), DRONE-B is at the center. -/
def c1Report : DroneReport :=
  { snapshotTimestamp := 2000,
    drones :=
      [⟨"DRONE-A", 360000, 250000⟩, ⟨"DRONE-B", 250000, 250000⟩] }

/-- C1: the claim states that `lastSeenAt` is only ever advanced by
snapshots in which the drone is within the 100 000 mm radius, and that
the step-10 upsert is applied exactly to the within-radius drones.  The
code violates this: `updateViolations` is called with
`distToNDZCenterPerDrone` (every drone of the snapshot) instead of
`tooCloseDistPerDrone`, so the tracked drone DRONE-A, reported at
distance 110 000 mm (outside the radius), still has its
`latestCaptureDateAndTime` advanced from 1000 to the snapshot timestamp
2000. -/
theorem c1_out_of_radius_lastSeen_advanced :
    NDZRadiusInMm ^ 2 <
      calcDistanceToNDZcenterSq ⟨"DRONE-A", 360000, 250000⟩
    ∧ ((checkNewViolations c1State 2500 (.success c1Report)
          (some fun _ => none)).1.violations.map
        fun v => (v.serialNumber, v.latestCaptureDateAndTime))
      = [("DRONE-A", 2000), ("DRONE-B", 2000)] := by
  constructor
  · decide
  · decide

/-! ### Claim C2 -/

/-- Report for the C2 counterexample: the fetch succeeded and the drone
list is empty. -/
def c2Report : DroneReport := { snapshotTimestamp := 100, drones := [] }

/-- C2 counterexample: after a cycle whose fetch succeeds with an empty
drone list, the store is indeed unchanged but `lastUpdatedAt` does NOT
advance to the current wall-clock time 7 — the step returns before
`_lastUpdatedAt = new Date()` is reached, leaving it `null`. -/
theorem c2_counterexample_lastUpdated_not_advanced :
    (checkNewViolations initState 7 (.success c2Report) (some fun _ => none)).1
      = initState
    ∧ (checkNewViolations initState 7 (.success c2Report)
        (some fun _ => none)).1.lastUpdatedAt ≠ some 7 := by
  constructor
  · decide
  · decide

/-- C2 (amended): a cycle whose fetch succeeds with an empty drone list
leaves the whole state unchanged — the store is untouched AND the
last-updated timestamp is not advanced (the code records it only at the
end of a fully processed cycle). -/
theorem c2_empty_list_state_unchanged :
    ∀ (s : MonitorState) (now ts : Int)
      (pf : Option (String → Option PilotInfo)),
      (checkNewViolations s now (.success ⟨ts, []⟩) pf).1 = s := by
  intro s now ts pf
  by_cases hth : isThrottled s now = true
  · rw [checkNewViolations_throttled _ pf hth]
  · rw [Bool.not_eq_true] at hth
    rw [checkNewViolations_emptyCapture pf hth (by rfl)]

/-! ### Claim C3 -/

/-- C3: after a cycle that fully processes a snapshot (not throttled,
fetch succeeded, pilot batch did not fail), every drone of the snapshot
whose Euclidean distance to the center (250000, 250000) is at most
100 000 mm has a violation with matching serial number in the store.
The distance hypothesis is stated with the genuine square root, exactly
as the source computes it. -/
theorem c3_within_radius_tracked :
    ∀ (s : MonitorState) (now : Int) (report : DroneReport)
      (resolve : String → Option PilotInfo) (d : DroneData),
      isThrottled s now = false →
      d ∈ report.drones →
      Real.sqrt ((calcDistanceToNDZcenterSq d : Int) : ℝ) ≤
        ((NDZRadiusInMm : Int) : ℝ) →
      ∃ v ∈ ((checkNewViolations s now (.success report)
                (some resolve)).1).violations,
        v.serialNumber = d.serialNumber := by
  intro s now report resolve d hth hd hsqrt
  have hd2 : calcDistanceToNDZcenterSq d ≤ NDZRadiusInMm ^ 2 :=
    (sqrt_dist_le_radius_iff _).mp hsqrt
  have hemp : report.drones.isEmpty = false := by
    cases hl : report.drones with
    | nil => rw [hl] at hd; simp at hd
    | cons a l => rfl
  have hdd1 : (⟨d.serialNumber, calcDistanceToNDZcenterSq d⟩ : DroneDist) ∈
      distToNDZCenterPerDrone report :=
    List.mem_map.mpr ⟨d, hd, rfl⟩
  have hdd2 : (⟨d.serialNumber, calcDistanceToNDZcenterSq d⟩ : DroneDist) ∈
      tooCloseDistPerDrone report :=
    List.mem_filter.mpr ⟨hdd1, by simpa using hd2⟩
  have htc : (tooCloseDistPerDrone report).isEmpty = false := by
    cases hl : tooCloseDistPerDrone report with
    | nil => rw [hl] at hdd2; simp at hdd2
    | cons a l => rfl
  rw [checkNewViolations_full resolve hth hemp htc]
  have hser : d.serialNumber ∈
      (updateViolations
        (s.violations ++
          newViolationsOf resolve (s.violations.map (·.serialNumber)) report)
        (distToNDZCenterPerDrone report) report.snapshotTimestamp).map
        (·.serialNumber) := by
    rw [updateViolations_map_serial, List.map_append]
    by_cases hex : d.serialNumber ∈ s.violations.map (·.serialNumber)
    · exact List.mem_append.mpr (Or.inl hex)
    · refine List.mem_append.mpr (Or.inr ?_)
      rw [newViolationsOf_map_serial]
      refine List.mem_map.mpr ⟨⟨d.serialNumber, calcDistanceToNDZcenterSq d⟩, ?_, rfl⟩
      refine List.mem_filter.mpr ⟨hdd2, ?_⟩
      simp only [List.contains, List.elem_eq_mem, decide_eq_false_iff_not,
        Bool.not_eq_eq_eq_not, Bool.not_true, decide_eq_false_iff_not]
      exact hex
  obtain ⟨v, hv, hvs⟩ := List.mem_map.mp hser
  exact ⟨v, hv, hvs⟩

/-- Report for the C3 witness: one drone exactly at the NDZ center. -/
def c3Report : DroneReport :=
  { snapshotTimestamp := 50, drones := [⟨"C3-DRONE", 250000, 250000⟩] }

/-- Witness for C3 at a concrete input: a fresh monitor, one drone at
the center of the zone; after the cycle its serial number is in the
store. -/
theorem c3_witness :
    isThrottled initState 9 = false
    ∧ (⟨"C3-DRONE", 250000, 250000⟩ : DroneData) ∈ c3Report.drones
    ∧ Real.sqrt ((calcDistanceToNDZcenterSq ⟨"C3-DRONE", 250000, 250000⟩ : Int) : ℝ) ≤
        ((NDZRadiusInMm : Int) : ℝ)
    ∧ ∃ v ∈ ((checkNewViolations initState 9 (.success c3Report)
                (some fun _ => none)).1).violations,
        v.serialNumber = "C3-DRONE" :=
  ⟨by decide, by decide,
    (sqrt_dist_le_radius_iff _).mpr (by decide),
    c3_within_radius_tracked initState 9 c3Report (fun _ => none)
      ⟨"C3-DRONE", 250000, 250000⟩ (by decide) (by decide)
      ((sqrt_dist_le_radius_iff _).mpr (by decide))⟩

/-! ### Claim C4 -/

/-- C4: (a) updating an existing record stores the minimum of the
existing closest distance and the newly observed distance; (b) across
any sequence of cycle events, as long as a serial number stays present
in the store (the lifetime of its record), the closest distance the
store resolves it to never increases.  Part (b) assumes duplicate-free
serial numbers in store and snapshots — the invariant of C5. -/
theorem c4_closest_distance_min_and_monotone :
    (∀ (dist t : Int) (v : NDZViolation),
        (updateViolationRecord dist t v).closestDistanceSqMm =
          min v.closestDistanceSqMm dist)
    ∧ (∀ (es : List CycleEvent) (s : MonitorState) (sn : String)
        (v w : NDZViolation),
        storeSerialsNodup s →
        (∀ e ∈ es, eventSerialsNodup e) →
        (∀ n, n ≤ es.length →
          (findViolation (runEvents s (es.take n)).violations sn).isSome = true) →
        findViolation s.violations sn = some v →
        findViolation (runEvents s es).violations sn = some w →
        w.closestDistanceSqMm ≤ v.closestDistanceSqMm) := by
  constructor
  · intro dist t v
    simp only [updateViolationRecord, min_def]
    split_ifs <;> omega
  · intro es s sn v w hs he hp hv hw
    exact (runEvents_find_evolves es s hs he hp hv hw).2.2

/-- Store for the C4 witness: one tracked drone at closest (squared)
distance 10000. -/
def c4State : MonitorState :=
  { violations := [⟨"C4-DRONE", 10000, none, 0⟩],
    lastUpdatedAt := some 0,
    throttleUntil := none }

/-- Event list for the C4 witness: one cycle that sees the tracked
drone again, closer (squared distance 2500). -/
def c4Events : List CycleEvent :=
  [.check 1 (.success ⟨1, [⟨"C4-DRONE", 250050, 250000⟩]⟩) (some fun _ => none)]

/-- Witness for C4 at a concrete input: the record of C4-DRONE ends at
closest (squared) distance 2500, not larger than the 10000 it started
with; the first conjunct instantiates the min-merge equation. -/
theorem c4_witness :
    (updateViolationRecord 2500 1 ⟨"C4-DRONE", 10000, none, 0⟩).closestDistanceSqMm
      = min 10000 2500
    ∧ storeSerialsNodup c4State
    ∧ (∀ e ∈ c4Events, eventSerialsNodup e)
    ∧ (∀ n, n ≤ c4Events.length →
        (findViolation (runEvents c4State (c4Events.take n)).violations
          "C4-DRONE").isSome = true)
    ∧ findViolation c4State.violations "C4-DRONE" = some ⟨"C4-DRONE", 10000, none, 0⟩
    ∧ findViolation (runEvents c4State c4Events).violations "C4-DRONE"
        = some ⟨"C4-DRONE", 2500, none, 1⟩
    ∧ (2500 : Int) ≤ 10000 :=
  ⟨c4_closest_distance_min_and_monotone.1 2500 1 ⟨"C4-DRONE", 10000, none, 0⟩,
    by decide, by decide, by decide, by decide, by decide,
    c4_closest_distance_min_and_monotone.2 c4Events c4State "C4-DRONE"
      ⟨"C4-DRONE", 10000, none, 0⟩ ⟨"C4-DRONE", 2500, none, 1⟩
      (by decide) (by decide) (by decide) (by decide) (by decide)⟩

/-! ### Claim C5 -/

/-- Event list for the C5 counterexample: one snapshot listing the same
serial number twice, both drones inside the zone, processed from a
fresh monitor. -/
def c5Events : List CycleEvent :=
  [.check 1
    (.success ⟨5, [⟨"C5-DRONE", 250000, 250000⟩, ⟨"C5-DRONE", 250100, 250000⟩]⟩)
    (some fun _ => none)]

/-- C5 counterexample: a snapshot repeating a serial number inserts two
records for it — the newly-observed filter compares only against the
store, not against the other entries of the same snapshot — so the
at-most-one-record-per-serial invariant fails on such a cycle. -/
theorem c5_counterexample_duplicate_serials :
    (runEvents initState c5Events).violations.map (·.serialNumber)
      = ["C5-DRONE", "C5-DRONE"]
    ∧ ¬ storeSerialsNodup (runEvents initState c5Events) := by
  constructor
  · decide
  · decide

/-- C5 (amended): in every state reachable from a store with
duplicate-free serial numbers through cycles whose snapshots list each
serial number at most once, the store has at most one violation per
serial number. -/
theorem c5_at_most_one_per_serial :
    ∀ (s : MonitorState) (es : List CycleEvent),
      storeSerialsNodup s → (∀ e ∈ es, eventSerialsNodup e) →
      storeSerialsNodup (runEvents s es) :=
  fun s es hs he => runEvents_nodup es s hs he

/-- Event list for the C5 witness: two ordinary cycles (one snapshot
with two distinct drones, then an eviction pass). -/
def c5WitnessEvents : List CycleEvent :=
  [.check 2 (.success ⟨2, [⟨"C5-A", 250000, 250000⟩, ⟨"C5-B", 250100, 250000⟩]⟩)
      (some fun _ => none),
   .evict 3]

/-- Witness for C5 at a concrete input. -/
theorem c5_witness :
    storeSerialsNodup initState
    ∧ (∀ e ∈ c5WitnessEvents, eventSerialsNodup e)
    ∧ storeSerialsNodup (runEvents initState c5WitnessEvents) :=
  ⟨by decide, by decide,
    c5_at_most_one_per_serial initState c5WitnessEvents (by decide) (by decide)⟩

/-! ### Claim C6 -/

/-- C6: in both versions of the monitoring logic, the pilot field of a
record already in the store is never overwritten: (a) first version —
the `addOrUpdateViolations` loop (which receives freshly re-fetched
pilot data for every violating drone) leaves the pilot of every
existing record position unchanged; (b) second version — a whole
`checkNewViolations` step leaves the pilot of every existing record
position unchanged. -/
theorem c6_pilot_never_overwritten :
    (∀ (vs incoming : List NDZViolation) (i : Nat) (v w : NDZViolation),
        vs[i]? = some v → (addOrUpdateViolations vs incoming)[i]? = some w →
        w.pilot = v.pilot)
    ∧ (∀ (s : MonitorState) (now : Int) (fetch : FetchResult)
        (pf : Option (String → Option PilotInfo)) (i : Nat) (v w : NDZViolation),
        s.violations[i]? = some v →
        ((checkNewViolations s now fetch pf).1).violations[i]? = some w →
        w.pilot = v.pilot) := by
  constructor
  · intro vs incoming i v w hv hw
    obtain ⟨w2, hw2, hev⟩ := addOrUpdateViolations_get?_evolves incoming vs hv
    rw [hw] at hw2
    cases hw2
    exact hev.2.1
  · intro s now fetch pf i v w hv hw
    obtain ⟨w2, hw2, hev⟩ := checkNewViolations_get?_evolves s now fetch pf hv
    rw [hw] at hw2
    cases hw2
    exact hev.2.1

/-- A pilot record for the C6 witness. -/
def c6Pilot : PilotInfo :=
  ⟨"Jane", "Smith", "+358000000000", "jane.smith@example.com"⟩

/-- Store for the C6 witness: one record whose pilot is resolved. -/
def c6State : MonitorState :=
  { violations := [⟨"C6-DRONE", 400, some c6Pilot, 0⟩],
    lastUpdatedAt := some 0,
    throttleUntil := none }

/-- Witness for C6 at concrete inputs: an incoming violation for the
same serial with a different (null) pilot, and a second-version cycle
seeing the drone again; neither changes the stored pilot. -/
theorem c6_witness :
    c6State.violations[0]? = some ⟨"C6-DRONE", 400, some c6Pilot, 0⟩
    ∧ (addOrUpdateViolations c6State.violations
        [⟨"C6-DRONE", 100, none, 7⟩])[0]?
        = some ⟨"C6-DRONE", 100, some c6Pilot, 7⟩
    ∧ (addOrUpdateViolations c6State.violations
        [⟨"C6-DRONE", 100, none, 7⟩])[0]?.map (·.pilot)
        = some (some c6Pilot)
    ∧ ((checkNewViolations c6State 8
          (.success ⟨8, [⟨"C6-DRONE", 250020, 250000⟩]⟩)
          (some fun _ => none)).1).violations[0]?
        = some ⟨"C6-DRONE", 400, some c6Pilot, 8⟩
    ∧ (⟨"C6-DRONE", 100, some c6Pilot, 7⟩ : NDZViolation).pilot
        = (⟨"C6-DRONE", 400, some c6Pilot, 0⟩ : NDZViolation).pilot
    ∧ (⟨"C6-DRONE", 400, some c6Pilot, 8⟩ : NDZViolation).pilot
        = (⟨"C6-DRONE", 400, some c6Pilot, 0⟩ : NDZViolation).pilot :=
  ⟨by decide, by decide, by decide, by decide,
    c6_pilot_never_overwritten.1 c6State.violations
      [⟨"C6-DRONE", 100, none, 7⟩] 0 _ _ (by decide) (by decide),
    c6_pilot_never_overwritten.2 c6State 8
      (.success ⟨8, [⟨"C6-DRONE", 250020, 250000⟩]⟩)
      (some fun _ => none) 0 _ _ (by decide) (by decide)⟩

/-! ### Claim C7 -/

/-- C7: the eviction pass removes exactly the records whose
`latestCaptureDateAndTime` is strictly older than `now` minus the fixed
10-minute retention; at the boundaries, a record 10 minutes 1 second
old is removed while records 9 minutes 59 seconds and exactly
10 minutes old are retained. -/
theorem c7_eviction_exactly_older_than_retention :
    (∀ (vs : List NDZViolation) (now : Int) (v : NDZViolation),
        v ∈ removeTooOldViolations vs now ↔
          v ∈ vs ∧ ¬(v.latestCaptureDateAndTime < now - msToStoreFor))
    ∧ (∀ now : Int,
        removeTooOldViolations [⟨"D", 0, none, now - 601000⟩] now = [])
    ∧ (∀ now : Int,
        removeTooOldViolations [⟨"D", 0, none, now - 599000⟩] now
          = [⟨"D", 0, none, now - 599000⟩])
    ∧ (∀ now : Int,
        removeTooOldViolations [⟨"D", 0, none, now - 600000⟩] now
          = [⟨"D", 0, none, now - 600000⟩]) := by
  refine ⟨?_, ?_, ?_, ?_⟩
  · intro vs now v
    simp only [removeTooOldViolations, List.mem_filter, decide_eq_true_eq,
      msToStoreFor]
    constructor
    · rintro ⟨h1, h2⟩
      exact ⟨h1, by omega⟩
    · rintro ⟨h1, h2⟩
      exact ⟨h1, by omega⟩
  · intro now
    simp only [removeTooOldViolations, List.filter_cons, List.filter_nil]
    rw [if_neg (by simp only [msToStoreFor, decide_eq_true_eq]; omega)]
  · intro now
    simp only [removeTooOldViolations, List.filter_cons, List.filter_nil]
    rw [if_pos (by simp only [msToStoreFor, decide_eq_true_eq]; omega)]
  · intro now
    simp only [removeTooOldViolations, List.filter_cons, List.filter_nil]
    rw [if_pos (by simp only [msToStoreFor, decide_eq_true_eq]; omega)]

/-! ### Claim C8 -/

/-- C8: if the pilot batch cannot be attempted at all (the resolver
input is the `null` sentinel of the `fetchPilots` catch branch), the
cycle ends with the monitor state — in particular the violation store
and the last-updated timestamp — completely unchanged, whatever the
fetched report contained. -/
theorem c8_total_resolution_failure_atomic :
    ∀ (s : MonitorState) (now : Int) (report : DroneReport),
      (checkNewViolations s now (.success report) none).1 = s := by
  intro s now report
  by_cases hth : isThrottled s now = true
  · rw [checkNewViolations_throttled _ none hth]
  · rw [Bool.not_eq_true] at hth
    cases hemp : report.drones.isEmpty with
    | true => rw [checkNewViolations_emptyCapture none hth hemp]
    | false =>
      cases htc : (tooCloseDistPerDrone report).isEmpty with
      | true => rw [checkNewViolations_noneTooClose none hth hemp htc]
      | false => rw [checkNewViolations_pilotsNull hth hemp htc]

/-! ### Claim C9 -/

/-- C9: the pilot batch is order-preserving and per-position: given one
settlement per requested serial number (in request order), the result
has the same length as the input serial list, position `i` is the image
of settlement `i` alone under `pilotFromSettled` (pilot data on a
fulfilled status-200 lookup, `null` on any other status or a rejected
lookup), and the value at one position never depends on the settlements
at other positions. -/
theorem c9_fetchPilots_order_preserving :
    ∀ (serialNumbers : List String) (results : List SettledResult),
      results.length = serialNumbers.length →
      ((fetchPilots results).length = serialNumbers.length
      ∧ (∀ i : Nat, (fetchPilots results)[i]? = results[i]?.map pilotFromSettled)
      ∧ (∀ (status : Nat) (data : PilotInfo),
          pilotFromSettled (.fulfilled status data) =
            if status = 200 then some data else none)
      ∧ pilotFromSettled .rejected = none
      ∧ (∀ (other : List SettledResult) (i : Nat), results[i]? = other[i]? →
          (fetchPilots results)[i]? = (fetchPilots other)[i]?)) := by
  intro serialNumbers results hlen
  refine ⟨by simpa [fetchPilots] using hlen, ?_, fun status data => rfl, rfl, ?_⟩
  · intro i
    simp [fetchPilots]
  · intro other i hsame
    simp [fetchPilots, hsame]

/-- Serial list for the C9 witness. -/
def c9SerialNumbers : List String := ["C9-A", "C9-B", "C9-C"]

/-- Settlements for the C9 witness: the first lookup succeeds, the
second is rejected, the third returns a non-success status. -/
def c9Results : List SettledResult :=
  [.fulfilled 200 ⟨"Sami", "Virtanen", "+358451734643", "sami.virtanen@example.com"⟩,
   .rejected,
   .fulfilled 404 ⟨"", "", "", ""⟩]

/-- Witness for C9 at a concrete input: one rejected and one
non-success lookup yield null at their own positions while the
successful first lookup still resolves. -/
theorem c9_witness :
    c9Results.length = c9SerialNumbers.length
    ∧ (fetchPilots c9Results).length = c9SerialNumbers.length
    ∧ (fetchPilots c9Results)[0]?
        = some (some ⟨"Sami", "Virtanen", "+358451734643", "sami.virtanen@example.com"⟩)
    ∧ (fetchPilots c9Results)[1]? = some none
    ∧ (fetchPilots c9Results)[2]? = some none :=
  ⟨by decide,
    (c9_fetchPilots_order_preserving c9SerialNumbers c9Results (by decide)).1,
    by decide, by decide, by decide⟩

/-! ### Claim C10 -/

/-- C10: after a 429 is received at `t0` (from a non-throttled state),
the store is untouched and the throttle deadline becomes `t0 + 6000`;
during the cooldown every `checkNewViolations` call returns with the
state unchanged and without attempting the network fetch (second
component false) — including along any sequence of such calls — and
once the cooldown has elapsed the throttle reads clear and fetch
attempts resume (second component true). -/
theorem c10_rate_limit_cooldown :
    ∀ (s : MonitorState) (t0 : Int) (pf : Option (String → Option PilotInfo)),
      isThrottled s t0 = false →
      ((checkNewViolations s t0 .rateLimited pf).1.violations = s.violations
      ∧ (checkNewViolations s t0 .rateLimited pf).1.throttleUntil
          = some (t0 + throttleCooldownMs)
      ∧ (∀ (t : Int) (fetch2 : FetchResult)
          (pf2 : Option (String → Option PilotInfo)),
          t0 ≤ t → t < t0 + throttleCooldownMs →
          isThrottled (checkNewViolations s t0 .rateLimited pf).1 t = true
          ∧ checkNewViolations (checkNewViolations s t0 .rateLimited pf).1 t
              fetch2 pf2
            = ((checkNewViolations s t0 .rateLimited pf).1, false))
      ∧ (∀ steps : List (Int × FetchResult × Option (String → Option PilotInfo)),
          (∀ p ∈ steps, t0 ≤ p.1 ∧ p.1 < t0 + throttleCooldownMs) →
          steps.foldl (fun st p => (checkNewViolations st p.1 p.2.1 p.2.2).1)
              (checkNewViolations s t0 .rateLimited pf).1
            = (checkNewViolations s t0 .rateLimited pf).1)
      ∧ (∀ t : Int, t0 + throttleCooldownMs ≤ t →
          isThrottled (checkNewViolations s t0 .rateLimited pf).1 t = false
          ∧ ∀ (fetch2 : FetchResult)
              (pf2 : Option (String → Option PilotInfo)),
              (checkNewViolations (checkNewViolations s t0 .rateLimited pf).1 t
                fetch2 pf2).2 = true)) := by
  intro s t0 pf h
  rw [checkNewViolations_rateLimited pf h]
  have hthr : ∀ t : Int, t < t0 + throttleCooldownMs →
      isThrottled { s with throttleUntil := some (t0 + throttleCooldownMs) } t
        = true := by
    intro t ht
    simp [isThrottled, ht]
  refine ⟨rfl, rfl, ?_, ?_, ?_⟩
  · intro t fetch2 pf2 h1 h2
    exact ⟨hthr t h2, checkNewViolations_throttled fetch2 pf2 (hthr t h2)⟩
  · intro steps hsteps
    induction steps with
    | nil => rfl
    | cons p rest ih =>
      have hp := hsteps p (by simp)
      have hstep :
          (checkNewViolations { s with throttleUntil := some (t0 + throttleCooldownMs) }
            p.1 p.2.1 p.2.2).1
            = { s with throttleUntil := some (t0 + throttleCooldownMs) } := by
        rw [checkNewViolations_throttled p.2.1 p.2.2 (hthr p.1 hp.2)]
      simp only [List.foldl_cons, hstep]
      exact ih fun q hq => hsteps q (by simp [hq])
  · intro t ht
    have hclear :
        isThrottled { s with throttleUntil := some (t0 + throttleCooldownMs) } t
          = false := by
      simp [isThrottled]
      omega
    exact ⟨hclear, fun fetch2 pf2 =>
      checkNewViolations_attempts_fetch fetch2 pf2 hclear⟩

/-- The state of the C10 witness after the 429 is processed at time 0
from a fresh monitor. -/
def c10ThrottledState : MonitorState :=
  (checkNewViolations initState 0 .rateLimited none).1

/-- Witness for C10 at concrete inputs: the 429 at time 0 throttles the
monitor; a fetch attempt at 3000 ms does nothing and skips the network,
and at 6000 ms the throttle reads clear and the fetch is attempted. -/
theorem c10_witness :
    isThrottled initState 0 = false
    ∧ c10ThrottledState.violations = initState.violations
    ∧ (isThrottled c10ThrottledState 3000 = true
        ∧ checkNewViolations c10ThrottledState 3000 .failure none
            = (c10ThrottledState, false))
    ∧ (isThrottled c10ThrottledState 6000 = false
        ∧ (checkNewViolations c10ThrottledState 6000 .failure none).2 = true) :=
  ⟨by decide,
    (c10_rate_limit_cooldown initState 0 none (by decide)).1,
    (c10_rate_limit_cooldown initState 0 none (by decide)).2.2.1 3000 .failure none
      (by decide) (by decide),
    ⟨((c10_rate_limit_cooldown initState 0 none (by decide)).2.2.2.2 6000
        (by decide)).1,
      ((c10_rate_limit_cooldown initState 0 none (by decide)).2.2.2.2 6000
        (by decide)).2 .failure none⟩⟩
